import Mathlib

/-!
Shallow embedding of the session state machine of the survey backend
(`backend/agents/survey_and_review_agent.py`, `backend/agents/review_gen_agent.py`,
`backend/main.py`).  Every definition mirrors the corresponding Python function;
external collaborators (the LLM suppliers and the database) are modelled as
explicit parameters: the follow-up supplier as a list of candidate questions,
the review supplier as a list of review options, the clock as a timestamp
argument, and the persisted `current_state` blob as the `SurveyState` record.
-/

namespace SurveySensei

/-- Configuration value `initial_questions_count` from `config.py` (line 35). -/
def initial_questions_count : Nat := 3

/-- Configuration value `max_survey_questions` from `config.py` (line 36). -/
def max_survey_questions : Nat := 10

/-- Configuration value `min_survey_questions` from `config.py` (line 37). -/
def min_survey_questions : Nat := 5

/-- Configuration value `review_options_count` from `config.py` (line 38). -/
def review_options_count : Nat := 3

/-- A survey question, mirroring the `SurveyQuestion` Pydantic model
(`survey_and_review_agent.py` lines 38-48) and the question dicts kept in
`SurveyState.all_questions`. -/
structure Question where
  question_text : String
  options : List String
  allow_multiple : Bool
  reasoning : String
deriving DecidableEq

/-- One recorded answer, mirroring the `answer_record` dict built in
`_process_answer` (lines 307-312) and in `edit_answer` (lines 735-740). -/
structure AnswerRecord where
  question_index : Nat
  question : String
  answer : String
  timestamp : String
deriving DecidableEq

/-- A generated review option, mirroring the Agent-4 `ReviewOption` Pydantic
model (`review_gen_agent.py` lines 72-83): the schema stored in
`generated_reviews` by the `/api/reviews/generate` endpoint and read back by
`/api/survey/review`. -/
structure Review where
  review_text : String
  review_stars : Int
  tone : String
  highlights : List String
deriving DecidableEq

/-- The mutable survey session state, mirroring the `current_state` blob that
`SurveyState` (the `TypedDict` at lines 79-105) describes and that every call
loads from and stores back to `session_context["current_state"]`.  The
conversation history entries are (role, content) pairs.  The identifier and
context fields are immutable inputs and are not needed by any claim, so they
are left out of the record. -/
structure SurveyState where
  all_questions : List Question
  current_question_index : Nat
  answers : List AnswerRecord
  total_questions_asked : Nat
  conversation_history : List (String × String)
  generated_reviews : Option (List Review)
deriving DecidableEq

/-- An answer payload: `SubmitAnswerRequest.answer` in `main.py` (lines 43-46)
is `Union[str, List[str]]`. -/
inductive AnswerValue where
  | single (s : String)
  | multi (xs : List String)
deriving DecidableEq

/-- String form of an answer: `", ".join(answer) if isinstance(answer, list)
else answer` (`_process_answer`, line 304). -/
def answer_text : AnswerValue → String
  | .single s => s
  | .multi xs => String.intercalate ", " xs

/-- Result of `_route_after_answer` (lines 533-554). -/
inductive Route where
  | complete_survey
  | generate_followup
  | ask_next
deriving DecidableEq

/-- The `next_action` strings produced by the node functions. -/
inductive NextAction where
  | ask_question
  | complete_survey
  | wait_for_answer
  | generate_review
deriving DecidableEq

/-- `_route_after_answer` (lines 533-554), translated clause by clause.  The
Python body is a flat `if`/nested-`if` cascade; the second nested branch
(`elif`) only runs when the modulo branch is false, which the flattening below
preserves because that branch already returned. -/
def route_after_answer (s : SurveyState) : Route :=
  let total_asked := s.total_questions_asked
  let total_available := s.all_questions.length
  if max_survey_questions ≤ total_asked then
    .complete_survey
  else if min_survey_questions ≤ total_asked ∧ total_asked % 3 = 0 ∧
      total_asked < max_survey_questions then
    .generate_followup
  else if min_survey_questions ≤ total_asked ∧ total_available ≤ s.current_question_index then
    .complete_survey
  else if s.current_question_index < total_available then
    .ask_next
  else
    .generate_followup

/-- `_process_answer` (lines 293-329): record the answer at the cursor, extend
the conversation history, advance the cursor.  The Python code indexes
`all_questions[current_question_index]` unconditionally, raising `IndexError`
when the cursor is out of range; that failure is `none` here. -/
def process_answer (s : SurveyState) (ans : AnswerValue) (ts : String) : Option SurveyState :=
  match s.all_questions[s.current_question_index]? with
  | none => none
  | some current_q =>
    let t := answer_text ans
    some { s with
      answers := s.answers ++
        [⟨s.current_question_index, current_q.question_text, t, ts⟩],
      current_question_index := s.current_question_index + 1,
      conversation_history := s.conversation_history ++
        [("assistant", current_q.question_text), ("user", t)] }

/-- The validation loop shared by `_generate_initial_questions` (lines 248-255)
and `_generate_followup_questions` (lines 399-407): a returned question is kept
unless its options are missing or fewer than 2 (`if not q_dict.get("options")
or len(q_dict["options"]) < 2: continue`; a missing or empty option list has
length < 2, so the length test covers both). -/
def collectValidQuestions : List Question → List Question
  | [] => []
  | q :: qs =>
    if q.options.length < 2 then collectValidQuestions qs
    else q :: collectValidQuestions qs

/-- `_generate_followup_questions` (lines 331-414).  The LLM call is the
`supplier` parameter (the batch of candidate questions it returned; the code
asks it for `min(2, max_survey_questions - total_questions_asked)` questions
but does not truncate its reply).  When the max is already reached the state
is unchanged and `next_action` is `complete_survey`; otherwise the validated
batch is appended to `all_questions`. -/
def generate_followup_questions (s : SurveyState) (supplier : List Question) :
    SurveyState × NextAction :=
  if max_survey_questions ≤ s.total_questions_asked then
    (s, .complete_survey)
  else
    ({ s with all_questions := s.all_questions ++ collectValidQuestions supplier },
      .ask_question)

/-- `_present_question` (lines 268-291): when the cursor is past the end the
state is unchanged and `next_action` becomes `generate_review`; otherwise
`total_questions_asked` is incremented (the database write of the question is
an external effect and not part of the state). -/
def present_question (s : SurveyState) : SurveyState × NextAction :=
  if s.all_questions.length ≤ s.current_question_index then
    (s, .generate_review)
  else
    ({ s with total_questions_asked := s.total_questions_asked + 1 }, .wait_for_answer)

/-- The state produced by `start_survey` (lines 560-608) for a supplier batch
`qs` of initial questions: `_generate_initial_questions` (lines 196-266)
validates the batch, raises when nothing survives (`none` here), and sets
cursor and counter to 0; `_present_question` then runs once on the nonempty
list and bumps `total_questions_asked` to 1.  `ctx` is the system message that
`_fetch_contexts` (lines 184-194) put into the conversation history. -/
def start_survey_state (qs : List Question) (ctx : String) : Option SurveyState :=
  let valid := collectValidQuestions qs
  if valid.isEmpty then none
  else some ((present_question
    { all_questions := valid
      current_question_index := 0
      answers := []
      total_questions_asked := 0
      conversation_history := [("system", ctx)]
      generated_reviews := none }).1)

/-- What `submit_answer` returns to the caller (lines 651-655 and 676-681),
together with the state it persisted. -/
inductive SubmitResult where
  | completed (saved : SurveyState) (review_options : List Review)
  | next (saved : SurveyState) (question : Question) (question_number : Nat)
      (total_questions : Nat)
deriving DecidableEq

/-- The state a `SubmitResult` persisted. -/
def SubmitResult.savedState : SubmitResult → SurveyState
  | .completed s _ => s
  | .next s _ _ _ => s

/-- `submit_answer` (lines 610-681).  `followups` is the batch the follow-up
supplier would return if invoked, `reviews` the batch the review supplier
would return if invoked.  On the `complete_survey` route the generated reviews
are stored and returned; on the `generate_followup` route the follow-up and
present steps run and then — exactly as in the Python, which falls through to
`updated_state["all_questions"][updated_state["current_question_index"]]` —
the next question is looked up at the cursor, an `IndexError` (`none`) when the
cursor is out of range.  The `ask_next` route skips the two intermediate
steps. -/
def submit_answer (s : SurveyState) (ans : AnswerValue) (followups : List Question)
    (reviews : List Review) (ts : String) : Option SubmitResult :=
  match process_answer s ans ts with
  | none => none
  | some s1 =>
    match route_after_answer s1 with
    | .complete_survey =>
      let final := { s1 with generated_reviews := some reviews }
      some (.completed final reviews)
    | .generate_followup =>
      let s2 := (generate_followup_questions s1 followups).1
      let s3 := (present_question s2).1
      match s3.all_questions[s3.current_question_index]? with
      | none => none
      | some q => some (.next s3 q (s3.current_question_index + 1) s3.all_questions.length)
    | .ask_next =>
      match s1.all_questions[s1.current_question_index]? with
      | none => none
      | some q => some (.next s1 q (s1.current_question_index + 1) s1.all_questions.length)

/-- The conversation history rebuilt by `edit_answer` (lines 743-749): one
assistant/user pair per surviving answer. -/
def rebuild_history (answers : List AnswerRecord) : List (String × String) :=
  (answers.map (fun a => [("assistant", a.question), ("user", a.answer)])).flatten

/-- The state saved by `edit_answer` (lines 703-786).  `question_number` is the
1-indexed number from the request (an arbitrary integer); the call fails
(`ValueError`, `none` here) when `question_number - 1` is negative or not the
index of a recorded answer, and raises (`none`) when `all_questions` has no
entry there.  Otherwise the answers are truncated to the edited index, a fresh
record with the new value and timestamp `ts` is appended, the history is
rebuilt, the cursor and turn counter are set to `index + 1`, and any generated
reviews are discarded. -/
def edit_state (s : SurveyState) (question_number : Int) (new_answer : String)
    (ts : String) : Option SurveyState :=
  let qi : Int := question_number - 1
  if qi < 0 ∨ (s.answers.length : Int) ≤ qi then none
  else
    match s.all_questions[qi.toNat]? with
    | none => none
    | some current_q =>
      let branched_answers := s.answers.take qi.toNat ++
        [⟨qi.toNat, current_q.question_text, new_answer, ts⟩]
      some { s with
        answers := branched_answers
        conversation_history := rebuild_history branched_answers
        current_question_index := qi.toNat + 1
        total_questions_asked := branched_answers.length
        generated_reviews := none }

/-- The failure modes of the Skip event named by the specification (§4.2). -/
inductive SkipFailure where
  | SkipLimitExceeded
  | MinimumNotMet
deriving DecidableEq

/-- Skip-limit constant of the specification (§4.2, default 3). -/
def MAX_CONSECUTIVE_SKIPS : Nat := 3

/-- Minimum-answered constant of the specification (§4.2, default 3). -/
def MIN_ANSWERED_QUESTIONS : Nat := 3

/-- The session snapshot as the specification describes it in §3, restricted
to the fields the Skip event touches.  It exists because the Skip handler is
missing from the available sources (see `skip_event`). -/
structure SpecSnapshot where
  ordered_questions : List Question
  answers : List AnswerRecord
  skipped_indices : List Nat
  consecutive_skips : Nat
  cursor : Nat
  total_turns : Nat
deriving DecidableEq

/-- Modelled from the spec: the route `/api/survey/skip` in `main.py` (lines
168-197) calls `survey_agent.skip_question`, but no `skip_question` method and
no skip bookkeeping exist anywhere in the available sources — only the caller
and the response fields (`skipped_count`, `consecutive_skips`) are present.
This definition follows §4.2 of the specification word for word: the event
requires `consecutive_skips < MAX_CONSECUTIVE_SKIPS`, else it fails with
`SkipLimitExceeded`; it also fails with `MinimumNotMet` when the skipped
question is the last remaining one and fewer than `MIN_ANSWERED_QUESTIONS`
answers are recorded; on success it records the index, advances the cursor,
and increments the skip streak and the turn counter. -/
def skip_event (s : SpecSnapshot) : Except SkipFailure SpecSnapshot :=
  if MAX_CONSECUTIVE_SKIPS ≤ s.consecutive_skips then
    .error .SkipLimitExceeded
  else if s.cursor + 1 = s.ordered_questions.length ∧
      s.answers.length < MIN_ANSWERED_QUESTIONS then
    .error .MinimumNotMet
  else
    .ok { s with
      skipped_indices := s.skipped_indices ++ [s.cursor]
      cursor := s.cursor + 1
      consecutive_skips := s.consecutive_skips + 1
      total_turns := s.total_turns + 1 }

/-- Modelled from the spec: the snapshot the orchestrator leaves in the store
after a Skip call — the new snapshot on success, the old one untouched on
failure (§7: every failure leaves the persisted snapshot unchanged). -/
def skip_persist (s : SpecSnapshot) : SpecSnapshot :=
  match skip_event s with
  | .ok s1 => s1
  | .error _ => s

/-- The state written back by the `/api/reviews/generate` endpoint (`main.py`
lines 232-285): it reads the stored `current_state`, calls the review supplier
(whose output is the `reviews` parameter), and persists
`{**current_state, "generated_reviews": [...]}` (lines 259-270) — every other
field of the state, and the conversation history it passes along, come
verbatim from the loaded state. -/
def generate_reviews_endpoint (s : SurveyState) (reviews : List Review) : SurveyState :=
  { s with generated_reviews := some reviews }

/-- Python list subscription with an `int` index: non-negative indices count
from the front, negative ones from the back, and anything outside `[-len, len)`
raises `IndexError` (`none`). -/
def pyGet {α : Type} (l : List α) (i : Int) : Option α :=
  if 0 ≤ i then l[i.toNat]?
  else if 0 ≤ i + l.length then l[(i + l.length).toNat]?
  else none

/-- The review persisted by the `/api/survey/review` endpoint (`main.py` lines
314-385).  The endpoint rejects the request (`400 Invalid review index`,
`none` here) when the stored `generated_reviews` list is missing or empty or
when `selected_review_index >= len(generated_reviews)`; otherwise it
subscripts the list with the raw integer index (Python semantics, so a
negative index within range selects from the back and one below `-len` raises,
`none` here) and saves the selected review.  `some r` means `r` was persisted;
`none` means the call failed and nothing was saved. -/
def submit_review_endpoint (s : SurveyState) (i : Int) : Option Review :=
  let gr := s.generated_reviews.getD []
  if gr.isEmpty ∨ (gr.length : Int) ≤ i then none
  else pyGet gr i

/-- `_get_star_ratings` (`review_gen_agent.py` lines 426-441): the star
ratings attached to the generated review options, chosen by sentiment band;
every band other than "good" and "okay" falls to the final `else`. -/
def get_star_ratings (band : String) : List Int :=
  if band = "good" then [5, 4]
  else if band = "okay" then [4, 3, 2]
  else [2, 1]

/-- The overwrite loop of `_generate_review_options` (`review_gen_agent.py`
lines 418-420): `for i, review in enumerate(reviews.reviews):
review.review_stars = star_ratings[i]`.  Each supplier review in order gets
the next rating; when the supplier returned more reviews than there are
ratings the subscript raises `IndexError` (`none`). -/
def assign_star_ratings : List Review → List Int → Option (List Review)
  | [], _ => some []
  | r :: rs, st :: sts =>
    (assign_star_ratings rs sts).map (fun out => { r with review_stars := st } :: out)
  | _ :: _, [] => none

/-- The final rating assignment of `_generate_review_options` for a sentiment
band and the supplier's review batch. -/
def overwrite_review_stars (band : String) (reviews : List Review) :
    Option (List Review) :=
  assign_star_ratings reviews (get_star_ratings band)

/-- The routing decision exactly as the specification words it (§4.2 a-d and
the claim built on it), written down for comparison with the source's
`route_after_answer`: the end-of-question-list test is its own branch,
independent of the minimum bound. -/
def route_after_answer_claimed (s : SurveyState) : Route :=
  if max_survey_questions ≤ s.total_questions_asked then
    .complete_survey
  else if min_survey_questions ≤ s.total_questions_asked ∧
      s.total_questions_asked % 3 = 0 then
    .generate_followup
  else if s.current_question_index = s.all_questions.length then
    .generate_followup
  else
    .ask_next

/-- The routing decision as the amended claim words it: the cap check first;
then the follow-up cadence; then — when the minimum has been reached — hitting
the end of the question list completes the survey; hitting the end below the
minimum requests follow-up generation; otherwise the next question is the one
at the cursor. -/
def route_after_answer_amended (s : SurveyState) : Route :=
  if max_survey_questions ≤ s.total_questions_asked then
    .complete_survey
  else if min_survey_questions ≤ s.total_questions_asked ∧
      s.total_questions_asked % 3 = 0 then
    .generate_followup
  else if min_survey_questions ≤ s.total_questions_asked ∧
      s.current_question_index = s.all_questions.length then
    .complete_survey
  else if s.current_question_index = s.all_questions.length then
    .generate_followup
  else
    .ask_next

/-- The follow-up validation exactly as the claim words it: keep a supplier
question when it has at least 2 options and its text was not already asked;
written down for comparison with the source's `collectValidQuestions`. -/
def followup_validation_claimed (asked : List String) (batch : List Question) :
    List Question :=
  batch.filter (fun q => 2 ≤ q.options.length ∧ q.question_text ∉ asked)

/-! Concrete sample data used by witnesses and counterexamples. -/

/-- A well-formed two-option question. -/
def wQ1 : Question := ⟨"q1", ["a", "b"], false, ""⟩

/-- A second well-formed question. -/
def wQ2 : Question := ⟨"q2", ["a", "b"], false, ""⟩

/-- A third well-formed question. -/
def wQ3 : Question := ⟨"q3", ["a", "b"], false, ""⟩

/-- A malformed supplier question with a single option: the validation loop
must drop it. -/
def wBadQ : Question := ⟨"bad", ["only"], false, ""⟩

/-- A supplier question whose text repeats an already-asked question. -/
def dupQ : Question := ⟨"T", ["yes", "no"], false, ""⟩

/-- A recorded sample answer for question `i`. -/
def wAns (i : Nat) (q : String) : AnswerRecord := ⟨i, q, "old", "t0"⟩

/-- A session that has answered three questions and generated reviews; used to
exercise the edit branch. -/
def editDemoState : SurveyState :=
  { all_questions := [wQ1, wQ2, wQ3]
    current_question_index := 3
    answers := [wAns 0 "q1", wAns 1 "q2", wAns 2 "q3"]
    total_questions_asked := 3
    conversation_history := []
    generated_reviews := some [] }

/-- A snapshot with ten questions and no skips yet. -/
def skipDemoQs : List Question := List.replicate 10 wQ1

/-- Spec snapshot before any skip. -/
def skipDemo0 : SpecSnapshot := ⟨skipDemoQs, [], [], 0, 0, 0⟩

/-- Spec snapshot after one skip. -/
def skipDemo1 : SpecSnapshot := ⟨skipDemoQs, [], [0], 1, 1, 1⟩

/-- Spec snapshot after two skips. -/
def skipDemo2 : SpecSnapshot := ⟨skipDemoQs, [], [0, 1], 2, 2, 2⟩

/-- Spec snapshot after three skips. -/
def skipDemo3 : SpecSnapshot := ⟨skipDemoQs, [], [0, 1, 2], 3, 3, 3⟩

/-- The post-answer state on which the routing decision of C3 diverges from
the claim.  It is reachable: start with six valid supplier questions (cursor
0, `total_questions_asked` 1), answer five times (each routed `ask_next`,
leaving cursor 5, `total_questions_asked` 1), edit answer 5 (setting cursor
and `total_questions_asked` to 5), then answer the sixth question —
`_process_answer` advances the cursor to 6 and `_route_after_answer` runs on
this state. -/
def routeDemoState : SurveyState :=
  { all_questions := [wQ1, wQ2, wQ3, dupQ, wQ1, wQ2]
    current_question_index := 6
    answers := [wAns 0 "q1", wAns 1 "q2", wAns 2 "q3", wAns 3 "T", wAns 4 "q1", wAns 5 "q2"]
    total_questions_asked := 5
    conversation_history := []
    generated_reviews := none }

/-- The three valid initial questions used to trace a session from start. -/
def demoInitialQs : List Question := [wQ1, wQ2, wQ3]

/-- The persisted state after `start_survey` with `demoInitialQs` followed by
two `submit_answer` calls with no follow-up generation: the exact state the
orchestrator stores. -/
def after_two_answers : Option SurveyState :=
  match start_survey_state demoInitialQs "ctx" with
  | none => none
  | some s0 =>
    match submit_answer s0 (.single "a") [] [] "t1" with
    | some (.next s1 _ _ _) =>
      match submit_answer s1 (.single "b") [] [] "t2" with
      | some (.next s2 _ _ _) => some s2
      | _ => none
    | _ => none

/-- A session that already asked the question with text "T"; used to show the
absence of text dedup. -/
def dedupDemoState : SurveyState :=
  { all_questions := [dupQ]
    current_question_index := 1
    answers := [wAns 0 "T"]
    total_questions_asked := 1
    conversation_history := []
    generated_reviews := none }

/-- A session one answer away from exhausting its question list while still
below the minimum: answering routes to follow-up generation. -/
def emptyBatchDemoState : SurveyState :=
  { all_questions := [wQ1, wQ2, wQ3]
    current_question_index := 2
    answers := [wAns 0 "q1", wAns 1 "q2"]
    total_questions_asked := 1
    conversation_history := []
    generated_reviews := none }

/-- A generated review option. -/
def revA : Review := ⟨"great product", 5, "enthusiastic", []⟩

/-- A second generated review option. -/
def revB : Review := ⟨"does the job", 4, "balanced", []⟩

/-- A session whose snapshot holds two generated review options. -/
def reviewDemoState : SurveyState :=
  { all_questions := [wQ1]
    current_question_index := 1
    answers := [wAns 0 "q1"]
    total_questions_asked := 1
    conversation_history := []
    generated_reviews := some [revA, revB] }

/-- A fresh session about to receive a multi-select answer. -/
def multiDemoState : SurveyState :=
  { all_questions := [wQ1]
    current_question_index := 0
    answers := []
    total_questions_asked := 1
    conversation_history := []
    generated_reviews := none }

/-- A supplier review whose star rating (3) the band mapping overwrites. -/
def supplierReviewDemo : Review := ⟨"nice", 3, "balanced", []⟩

/-! Theorems. -/

/-- C1.  For every session state with `n ≥ 1` recorded answers and every
1-indexed `question_number` `k` with `1 ≤ k ≤ n` (on a well-formed state whose
answers align with a prefix of the question list), the edit operation with a
new value saves the state whose answers are the first `k - 1` old records
followed by one new record at index `k - 1` carrying the new value and the
fresh timestamp, whose cursor and `total_questions_asked` equal `k`, whose
generated artifacts are cleared, and whose question list is unchanged (the
record update below touches no other field). -/
theorem edit_answer_branches (s : SurveyState) (k : Nat) (v ts : String)
    (h1 : 1 ≤ k) (h2 : k ≤ s.answers.length)
    (h3 : s.answers.length ≤ s.all_questions.length) :
    edit_state s (k : Int) v ts = some
      { s with
        answers := s.answers.take (k - 1) ++
          [⟨k - 1, (s.all_questions.get ⟨k - 1, by omega⟩).question_text, v, ts⟩]
        conversation_history := rebuild_history (s.answers.take (k - 1) ++
          [⟨k - 1, (s.all_questions.get ⟨k - 1, by omega⟩).question_text, v, ts⟩])
        current_question_index := k
        total_questions_asked := k
        generated_reviews := none } := by
  have hq : k - 1 < s.all_questions.length := by omega
  have hqn : ((k : Int) - 1).toNat = k - 1 := by omega
  have hcond : ¬ (((k : Int) - 1) < 0 ∨ (s.answers.length : Int) ≤ (k : Int) - 1) := by
    omega
  have hget : s.all_questions[k - 1]? = some (s.all_questions.get ⟨k - 1, hq⟩) := by
    rw [List.getElem?_eq_getElem hq]
    rfl
  have hx : ((s.answers.take (k - 1)) ++
      [(⟨k - 1, (s.all_questions.get ⟨k - 1, hq⟩).question_text, v, ts⟩ :
        AnswerRecord)]).length = k := by
    simp [List.length_take]
    omega
  have hk1 : (k - 1) + 1 = k := by omega
  simp only [edit_state]
  rw [if_neg hcond, hqn, hget]
  show some
      { s with
        answers := s.answers.take (k - 1) ++
          [(⟨k - 1, (s.all_questions.get ⟨k - 1, hq⟩).question_text, v, ts⟩ : AnswerRecord)]
        conversation_history := rebuild_history (s.answers.take (k - 1) ++
          [(⟨k - 1, (s.all_questions.get ⟨k - 1, hq⟩).question_text, v, ts⟩ : AnswerRecord)])
        current_question_index := (k - 1) + 1
        total_questions_asked := (s.answers.take (k - 1) ++
          [(⟨k - 1, (s.all_questions.get ⟨k - 1, hq⟩).question_text, v, ts⟩ :
            AnswerRecord)]).length
        generated_reviews := none } = _
  rw [hx, hk1]

/-- C1 witness: editing answer 2 of a three-answer session with new value "X"
at timestamp "t9". -/
theorem edit_answer_branches_witness :
    edit_state editDemoState 2 "X" "t9" = some
      { editDemoState with
        answers := editDemoState.answers.take 1 ++ [⟨1, "q2", "X", "t9"⟩]
        conversation_history := rebuild_history
          (editDemoState.answers.take 1 ++ [⟨1, "q2", "X", "t9"⟩])
        current_question_index := 2
        total_questions_asked := 2
        generated_reviews := none } :=
  edit_answer_branches editDemoState 2 "X" "t9" (by decide) (by decide) (by decide)

/-- A successful spec-modelled skip increments the streak counter by one. -/
theorem skip_event_ok_consecutive {s s1 : SpecSnapshot} (h : skip_event s = .ok s1) :
    s1.consecutive_skips = s.consecutive_skips + 1 := by
  unfold skip_event at h
  split at h
  · exact Except.noConfusion h
  · split at h
    · exact Except.noConfusion h
    · cases h
      rfl

/-- A spec snapshot at the skip limit fails with `SkipLimitExceeded`. -/
theorem skip_event_at_limit {s : SpecSnapshot}
    (h : MAX_CONSECUTIVE_SKIPS ≤ s.consecutive_skips) :
    skip_event s = .error .SkipLimitExceeded := by
  unfold skip_event
  rw [if_pos h]

/-- C2.  A Skip event fails with `SkipLimitExceeded` whenever the skip streak
has reached `MAX_CONSECUTIVE_SKIPS` (3) at the time of the call, the stored
snapshot is unchanged by the failed call, and in particular after three
consecutive successful skips the fourth fails the same way. -/
theorem skip_limit_enforced :
    (∀ s : SpecSnapshot, MAX_CONSECUTIVE_SKIPS ≤ s.consecutive_skips →
      skip_event s = .error .SkipLimitExceeded ∧ skip_persist s = s) ∧
    (∀ s s1 s2 s3 : SpecSnapshot,
      skip_event s = .ok s1 → skip_event s1 = .ok s2 → skip_event s2 = .ok s3 →
      skip_event s3 = .error .SkipLimitExceeded ∧ skip_persist s3 = s3) := by
  have key : ∀ s : SpecSnapshot, MAX_CONSECUTIVE_SKIPS ≤ s.consecutive_skips →
      skip_event s = .error .SkipLimitExceeded ∧ skip_persist s = s := by
    intro s h
    have he := skip_event_at_limit h
    refine ⟨he, ?_⟩
    unfold skip_persist
    rw [he]
  refine ⟨key, ?_⟩
  intro s s1 s2 s3 h1 h2 h3
  have c1 := skip_event_ok_consecutive h1
  have c2 := skip_event_ok_consecutive h2
  have c3 := skip_event_ok_consecutive h3
  exact key s3 (by unfold MAX_CONSECUTIVE_SKIPS; omega)

/-- C2 witness: from a fresh ten-question snapshot, three skips succeed and
the fourth fails with `SkipLimitExceeded`, leaving the snapshot unchanged. -/
theorem skip_limit_enforced_witness :
    skip_event skipDemo3 = .error .SkipLimitExceeded ∧ skip_persist skipDemo3 = skipDemo3 :=
  skip_limit_enforced.2 skipDemo0 skipDemo1 skipDemo2 skipDemo3 (by rfl) (by rfl) (by rfl)

/-- C3 counterexample.  On the reachable post-answer state `routeDemoState`
(`total_questions_asked` 5, cursor at the end of a six-question list, 5 not a
multiple of 3) the routing rule exactly as the claim words it requests
follow-up generation, but the source's `_route_after_answer` completes the
survey: the end-of-question-list branch of the claim is subordinated to the
minimum bound in the code. -/
theorem route_end_of_list_counterexample :
    route_after_answer_claimed routeDemoState = .generate_followup ∧
    route_after_answer routeDemoState = .complete_survey := by
  constructor <;> rfl

/-- C3 amended.  On states whose cursor is within bounds, the routing decision
equals the amended rule: cap first, then the every-third-turn cadence, then —
once the minimum is reached — end-of-list completes the survey, while
end-of-list below the minimum requests follow-up generation; otherwise the
next question is the one at the cursor. -/
theorem route_after_answer_matches_amended (s : SurveyState)
    (h : s.current_question_index ≤ s.all_questions.length) :
    route_after_answer s = route_after_answer_amended s := by
  simp only [route_after_answer, route_after_answer_amended]
  split_ifs <;> first | rfl | (exfalso; omega)

/-- C3 witness: the amended rule agrees with the code on `routeDemoState`. -/
theorem route_after_answer_matches_amended_witness :
    route_after_answer routeDemoState = route_after_answer_amended routeDemoState :=
  route_after_answer_matches_amended routeDemoState (by decide)

/-- C4.  Evaluating the code on a session started with three valid questions
and two plain answers: the persisted state has `total_questions_asked` 1 but
cursor 2 — the claimed invariant `total_turns == cursor` fails on reachable
states, because `submit_answer`'s plain ask-next path returns the next
question without going through `_present_question`'s counter increment. -/
theorem total_turns_diverges_from_cursor :
    after_two_answers.map
      (fun s => (s.total_questions_asked, s.current_question_index)) = some (1, 2) := by
  rfl

/-- The validation loop is a filter on the two-option rule. -/
theorem collectValidQuestions_eq_filter (qs : List Question) :
    collectValidQuestions qs = qs.filter (fun q => 2 ≤ q.options.length) := by
  induction qs with
  | nil => rfl
  | cons q qs ih =>
    simp only [collectValidQuestions, List.filter_cons]
    by_cases h : q.options.length < 2
    · rw [if_pos h, ih]
      have h2 : ¬ (2 ≤ q.options.length) := by omega
      simp [h2]
    · rw [if_neg h, ih]
      have h2 : 2 ≤ q.options.length := by omega
      simp [h2]

/-- C5 counterexample.  In the session `dedupDemoState`, which has already
asked the question with text "T", the engine accepts a supplier question with
the same text: the code's validation keeps it, while the claim's validation
(two options and unseen text) rejects it, and the resulting question list
holds the text "T" twice. -/
theorem followup_dedup_counterexample :
    collectValidQuestions [dupQ] = [dupQ] ∧
    followup_validation_claimed ["T"] [dupQ] = [] ∧
    (generate_followup_questions dedupDemoState [dupQ]).1.all_questions.map
      Question.question_text = ["T", "T"] ∧
    ¬ ((generate_followup_questions dedupDemoState [dupQ]).1.all_questions.map
      Question.question_text).Nodup := by
  refine ⟨by rfl, by rfl, by rfl, by decide⟩

/-- C5 amended.  Below the question cap, the engine appends to the question
list exactly those supplier questions that have at least 2 options, in
supplier order; question text is never compared against previously asked
questions. -/
theorem followup_validation_amended (s : SurveyState) (batch : List Question)
    (h : s.total_questions_asked < max_survey_questions) :
    (generate_followup_questions s batch).1.all_questions =
      s.all_questions ++ batch.filter (fun q => 2 ≤ q.options.length) ∧
    (generate_followup_questions s batch).2 = .ask_question := by
  have hn : ¬ (max_survey_questions ≤ s.total_questions_asked) := by omega
  simp only [generate_followup_questions, if_neg hn]
  exact ⟨by rw [collectValidQuestions_eq_filter], by trivial⟩

/-- C5 witness: a batch with one valid and one single-option question. -/
theorem followup_validation_amended_witness :
    (generate_followup_questions dedupDemoState [dupQ, wBadQ]).1.all_questions =
      dedupDemoState.all_questions ++
        [dupQ, wBadQ].filter (fun q => 2 ≤ q.options.length) ∧
    (generate_followup_questions dedupDemoState [dupQ, wBadQ]).2 = .ask_question :=
  followup_validation_amended dedupDemoState [dupQ, wBadQ] (by decide)

/-- C6.  Evaluating the code where follow-up generation is requested at the
end of the question list and the supplier batch validates to empty (its only
question has a single option): `_present_question` signals `generate_review`,
but `submit_answer` ignores the signal and subscripts
`all_questions[current_question_index]` out of range — the call fails
(`IndexError`, surfaced as HTTP 500) instead of transitioning to content
generation and returning a completion status. -/
theorem submit_answer_empty_followup_errors :
    collectValidQuestions [wBadQ] = [] ∧
    (present_question (generate_followup_questions
      { emptyBatchDemoState with
        current_question_index := 3
        answers := emptyBatchDemoState.answers ++ [wAns 2 "q3"] } [wBadQ]).1).2 =
      .generate_review ∧
    submit_answer emptyBatchDemoState (.single "opt") [wBadQ] [] "t3" = none := by
  refine ⟨by rfl, by rfl, by rfl⟩

/-- C7.  Two consecutive `generate_reviews` calls (with supplier outputs `r1`
then `r2`) persist exactly the loaded state with `generated_reviews` replaced:
the stored answers, cursor, asked-question texts and conversation history
after the second call equal those before the first call, and the snapshot
differs from the original only in the `generated_reviews` field. -/
theorem generate_reviews_idempotent_frame (s : SurveyState) (r1 r2 : List Review) :
    generate_reviews_endpoint (generate_reviews_endpoint s r1) r2 =
      { s with generated_reviews := some r2 } ∧
    (generate_reviews_endpoint (generate_reviews_endpoint s r1) r2).answers = s.answers ∧
    (generate_reviews_endpoint (generate_reviews_endpoint s r1) r2).current_question_index =
      s.current_question_index ∧
    (generate_reviews_endpoint (generate_reviews_endpoint s r1) r2).all_questions.map
      Question.question_text = s.all_questions.map Question.question_text ∧
    (generate_reviews_endpoint (generate_reviews_endpoint s r1) r2).conversation_history =
      s.conversation_history :=
  ⟨rfl, rfl, rfl, rfl, rfl⟩

/-- C8 counterexample.  With two stored review options, `submit_review` at
index -1 — outside the claimed success range `0 ≤ i < k` — is not rejected:
Python list subscription selects the last option and the endpoint persists
it. -/
theorem submit_review_negative_index_accepted :
    submit_review_endpoint reviewDemoState (-1) = some revB ∧ ¬ (0 ≤ (-1 : Int)) := by
  refine ⟨by rfl, by decide⟩

/-- C8 amended.  `submit_review` persists a review exactly when the index lies
in `[-k, k)` for `k` stored review options (Python indexing: a negative index
in range selects from the back); indices `≥ k`, indices `< -k`, and an absent
or empty option list persist nothing. -/
theorem submit_review_success_range (s : SurveyState) (i : Int) :
    (submit_review_endpoint s i).isSome = true ↔
      (-((s.generated_reviews.getD []).length : Int) ≤ i ∧
        i < ((s.generated_reviews.getD []).length : Int)) := by
  have hempty : (s.generated_reviews.getD []).isEmpty = true ↔
      (s.generated_reviews.getD []).length = 0 := by
    cases s.generated_reviews.getD [] <;> simp
  simp only [submit_review_endpoint, pyGet]
  split_ifs with h1 h2 h3
  · simp only [Option.isSome_none, Bool.false_eq_true, false_iff]
    rcases h1 with h | h
    · rw [hempty] at h
      omega
    · omega
  · rw [not_or] at h1
    have hlt : i < ((s.generated_reviews.getD []).length : Int) := by omega
    have hn : i.toNat < (s.generated_reviews.getD []).length := by omega
    rw [List.getElem?_eq_getElem hn]
    simp only [Option.isSome_some, true_iff]
    omega
  · rw [not_or] at h1
    have hn : (i + ((s.generated_reviews.getD []).length : Int)).toNat <
        (s.generated_reviews.getD []).length := by omega
    rw [List.getElem?_eq_getElem hn]
    simp only [Option.isSome_some, true_iff]
    omega
  · simp only [Option.isSome_none, Bool.false_eq_true, false_iff]
    omega

/-- C9.  Whenever the cursor points at a question, a multi-select answer (a
list of strings) is recorded as the single string joining the selections with
", ": the stored record and both new conversation entries hold that plain
string. -/
theorem multi_select_answer_joined (s : SurveyState) (xs : List String) (ts : String)
    (q : Question) (h : s.all_questions[s.current_question_index]? = some q) :
    process_answer s (.multi xs) ts = some { s with
      answers := s.answers ++
        [⟨s.current_question_index, q.question_text, String.intercalate ", " xs, ts⟩]
      current_question_index := s.current_question_index + 1
      conversation_history := s.conversation_history ++
        [("assistant", q.question_text), ("user", String.intercalate ", " xs)] } := by
  simp only [process_answer, h, answer_text]

/-- C9 witness: the multi-select answer ["red", "blue"] is stored as the
string "red, blue". -/
theorem multi_select_answer_joined_witness :
    process_answer multiDemoState (.multi ["red", "blue"]) "t4" = some { multiDemoState with
      answers := [⟨0, "q1", "red, blue", "t4"⟩]
      current_question_index := 1
      conversation_history := [("assistant", "q1"), ("user", "red, blue")] } := by
  exact multi_select_answer_joined multiDemoState ["red", "blue"] "t4" wQ1 (by rfl)

/-- The star-overwrite loop pairs each supplier review in order with the next
rating of the list and keeps the review texts. -/
theorem assign_star_ratings_ok (rs : List Review) :
    ∀ (sts : List Int) (out : List Review), assign_star_ratings rs sts = some out →
      out.map Review.review_stars = sts.take rs.length ∧
      out.map Review.review_text = rs.map Review.review_text := by
  induction rs with
  | nil =>
    intro sts out h
    simp only [assign_star_ratings, Option.some.injEq] at h
    subst h
    simp
  | cons r rs ih =>
    intro sts out h
    cases sts with
    | nil => exact Option.noConfusion h
    | cons st sts =>
      simp only [assign_star_ratings, Option.map_eq_some'] at h
      obtain ⟨out0, hout0, rfl⟩ := h
      obtain ⟨hstars, htexts⟩ := ih sts out0 hout0
      simp [hstars, htexts]

/-- Every rating the band mapping can produce lies in 1..5. -/
theorem get_star_ratings_bounds (band : String) (st : Int)
    (h : st ∈ get_star_ratings band) : 1 ≤ st ∧ st ≤ 5 := by
  unfold get_star_ratings at h
  split_ifs at h <;> simp at h <;> omega

/-- C10.  Whenever the overwrite loop of review generation succeeds, the
returned options carry the ratings of the fixed band mapping, in order —
exactly [5, 4] for "good", [4, 3, 2] for "okay", [2, 1] for any other band —
so every returned rating lies in 1..5 regardless of the ratings the supplier
produced, and the review texts are the supplier's. -/
theorem star_ratings_overwritten (band : String) (reviews out : List Review)
    (h : overwrite_review_stars band reviews = some out) :
    out.map Review.review_stars = (get_star_ratings band).take reviews.length ∧
    (∀ r ∈ out, 1 ≤ r.review_stars ∧ r.review_stars ≤ 5) ∧
    out.map Review.review_text = reviews.map Review.review_text ∧
    get_star_ratings "good" = [5, 4] ∧
    get_star_ratings "okay" = [4, 3, 2] ∧
    (band ≠ "good" → band ≠ "okay" → get_star_ratings band = [2, 1]) := by
  obtain ⟨h1, h2⟩ := assign_star_ratings_ok reviews (get_star_ratings band) out h
  refine ⟨h1, ?_, h2, by rfl, by rfl, ?_⟩
  · intro r hr
    have hmem : r.review_stars ∈ (get_star_ratings band).take reviews.length := by
      rw [← h1]
      exact List.mem_map_of_mem _ hr
    exact get_star_ratings_bounds band _ (List.take_subset _ _ hmem)
  · intro hg ho
    simp [get_star_ratings, hg, ho]

/-- C10 witness: a supplier review with rating 3 on band "good" comes back
with rating 5. -/
theorem star_ratings_overwritten_witness :
    ([⟨"nice", 5, "balanced", []⟩] : List Review).map Review.review_stars =
      (get_star_ratings "good").take [supplierReviewDemo].length :=
  (star_ratings_overwritten "good" [supplierReviewDemo]
    [⟨"nice", 5, "balanced", []⟩] (by rfl)).1

end SurveySensei
